import Mathlib

/-!
Verification of the audio-applet core: the panel state machine and
continuous-control protocol of `src/lib.rs`, and the gesture-recognition
wrapper widget of `src/mouse_area.rs`, shallowly embedded as pure Lean
functions.  Machine floats (`f32` cursor coordinates and scroll deltas) are
modelled by exact rationals; `Instant` timestamps by nanosecond naturals
(`Duration::as_millis` is truncating division by 10^6); `u32`/`i32` values by
`Nat`/`Int` (all values in scope stay far below 2^31, so wrapping never
occurs and only the explicit `clamp` matters).
-/

/-! ## Data model from `src/lib.rs` -/

/-- The slice of the daemon-owned `css::Model` snapshot that the applet
reads and writes: reported volumes, the volume text labels, mute flags. -/
structure Model where
  sink_volume : Nat
  source_volume : Nat
  sink_volume_text : String
  source_volume_text : String
  sink_mute : Bool
  source_mute : Bool
  deriving DecidableEq, Repr

/-- `enum DevOpen { None, Output, Input }`: which device list is expanded. -/
inductive DevOpen
  | none | output | input
  deriving DecidableEq, Repr

/-- The `Audio` applet state (`struct Audio`), restricted to the fields the
update loop and views touch.  `popup` holds the window id; `timeline` is an
abstract stand-in for the `cosmic_time::Timeline` (reset to `0` by
`Timeline::new()`); `last_update` is the `Option<Instant>` rate-limit
timestamp in nanoseconds. -/
structure Audio where
  popup : Option Nat
  model : Model
  is_open : DevOpen
  max_sink_volume : Nat
  max_source_volume : Nat
  sink_breakpoints : List Nat
  source_breakpoints : List Nat
  timeline : Nat
  sink_drag_val : Option Nat
  source_drag_val : Option Nat
  last_update : Option Nat
  deriving DecidableEq, Repr

/-- A scroll delta (`iced::mouse::ScrollDelta`), with `f32` components as
exact rationals. -/
inductive ScrollDelta
  | lines (x y : ℚ)
  | pixels (x y : ℚ)
  deriving DecidableEq, Repr

/-- The applet messages relevant to the core (`enum Message`).  The
daemon-push arm stands for `Message::Subscription` carrying a model update. -/
inductive Msg
  | ignore
  | setSinkVolume (v : Nat)
  | dragSink (v : Nat)
  | commitSink
  | toggleSinkMute
  | dragSource (v : Nat)
  | commitSource
  | toggleSourceMute
  | outputToggle
  | inputToggle
  | togglePopup
  | closeRequested (id : Nat)
  | subscriptionPush (sinkVol sourceVol : Nat)
  | frame (t : Nat)
  deriving DecidableEq, Repr

/-- Observable external effects of one `update` call: fire-and-forget
subprocess spawns and popup surface commands. -/
inductive Effect
  | spawn (prog : String) (args : List String)
  | destroyPopup (id : Nat)
  | getPopup (id : Nat)
  deriving DecidableEq, Repr

/-- Modelled from the spec: the capability flags `ampSink` / `ampSource`
stand for `amplification_sink()` / `amplification_source()` of the
repository's `config.rs`, which is not present under `src/`; per the spec
the configuration collaborator "supplies a capability flag (amplification
supported for sink and independently for source)", a boolean read at
handling time.  `now` is the wall clock (`Instant::now()`, nanoseconds)
and `freshId` the fresh `window::Id::unique()` — ambient runtime inputs. -/
structure Env where
  now : Nat
  freshId : Nat
  ampSink : Bool
  ampSource : Bool
  deriving DecidableEq, Repr

/-- `format!("{:.2}", val as f32 / 100.0)`: the two-decimal rendering of
`val / 100`.  For the values in scope (`val ≤ 150`) the nearest `f32` to
`val / 100` is within 2^-24 of the exact centesimal, so rounding the float
to two decimals reproduces it exactly. -/
def fmtCenti (v : Nat) : String :=
  toString (v / 100) ++ "." ++ (if v % 100 < 10 then "0" else "") ++ toString (v % 100)

/-- Modelled from the spec: the audio-daemon subscription handler
`css::Model::update` lives in the external `cosmic_settings_sound_subscription`
crate, not in this repository.  Per the interface contract a push delivers a
fresh model snapshot (sink/source volume and derived text); we model it as
replacing those snapshot fields. -/
def Model.applyPush (sinkVol sourceVol : Nat) (m : Model) : Model :=
  { m with
    sink_volume := sinkVol
    source_volume := sourceVol
    sink_volume_text := toString sinkVol ++ "%"
    source_volume_text := toString sourceVol ++ "%" }

/-- `Audio::update` from `src/lib.rs`, one message to completion, returning
the new state and the list of external effects issued. -/
def Audio.update (env : Env) (a : Audio) : Msg → Audio × List Effect
  | .frame t => ({ a with timeline := t }, [])
  | .dragSink v =>
    ({ a with
        sink_drag_val := some v
        model := { a.model with sink_volume_text := toString v ++ "%" } }, [])
  | .dragSource v =>
    ({ a with
        source_drag_val := some v
        model := { a.model with source_volume_text := toString v ++ "%" } }, [])
  | .commitSink =>
    match a.sink_drag_val with
    | some v =>
      ({ a with sink_drag_val := none },
       [Effect.spawn "wpctl" ["set-volume", "@DEFAULT_AUDIO_SINK@", fmtCenti v]])
    | none => (a, [])
  | .commitSource =>
    match a.source_drag_val with
    | some v =>
      ({ a with source_drag_val := none },
       [Effect.spawn "wpctl" ["set-volume", "@DEFAULT_AUDIO_SOURCE@", fmtCenti v]])
    | none => (a, [])
  | .setSinkVolume v =>
    match a.last_update with
    | some l =>
      if (env.now - l) / 1000000 < 50 then (a, [])
      else
        ({ a with last_update := some env.now },
         [Effect.spawn "wpctl" ["set-volume", "@DEFAULT_AUDIO_SINK@", fmtCenti v]])
    | none =>
      ({ a with last_update := some env.now },
       [Effect.spawn "wpctl" ["set-volume", "@DEFAULT_AUDIO_SINK@", fmtCenti v]])
  | .toggleSinkMute =>
    (a, [Effect.spawn "wpctl" ["set-mute", "@DEFAULT_AUDIO_SINK@", "toggle"]])
  | .toggleSourceMute =>
    (a, [Effect.spawn "wpctl" ["set-mute", "@DEFAULT_AUDIO_SOURCE@", "toggle"]])
  | .outputToggle =>
    ({ a with is_open := if a.is_open = DevOpen.output then DevOpen.none else DevOpen.output }, [])
  | .inputToggle =>
    ({ a with is_open := if a.is_open = DevOpen.input then DevOpen.none else DevOpen.input }, [])
  | .togglePopup =>
    match a.popup with
    | some p => ({ a with popup := none }, [Effect.destroyPopup p])
    | none =>
      ({ a with
          popup := some env.freshId
          timeline := 0
          max_sink_volume := if env.ampSink then 150 else 100
          sink_breakpoints := if env.ampSink then [100] else []
          max_source_volume := if env.ampSource then 150 else 100
          source_breakpoints := if env.ampSource then [100] else [] },
       [Effect.getPopup env.freshId])
  | .closeRequested id =>
    if a.popup = some id then ({ a with popup := none }, []) else (a, [])
  | .subscriptionPush sv srcv =>
    ({ a with model := a.model.applyPush sv srcv }, [])
  | .ignore => (a, [])

/-! ## Views from `src/lib.rs` -/

/-- What `view_window` renders for one slider row: range ceiling,
slider position, breakpoints, and the percentage label. -/
structure SliderView where
  rangeMax : Nat
  value : Nat
  breakpoints : List Nat
  labelText : String
  deriving DecidableEq, Repr

/-- `Audio::view_window`: the two slider rows.  `sink_vol` and `source_vol`
are `drag_val.unwrap_or(model volume)`. -/
def Audio.view_window (a : Audio) : SliderView × SliderView :=
  let sink_vol := a.sink_drag_val.getD a.model.sink_volume
  let source_vol := a.source_drag_val.getD a.model.source_volume
  (⟨a.max_sink_volume, sink_vol, a.sink_breakpoints, toString sink_vol ++ "%"⟩,
   ⟨a.max_source_volume, source_vol, a.source_breakpoints, toString source_vol ++ "%"⟩)

/-- `f32::signum` for nonzero finite values (`+0.0` also maps to `1`;
`ℚ` has no negative zero). -/
def signumF (y : ℚ) : ℚ := if y < 0 then -1 else 1

/-- Rust `as i32` on an `f32`: truncation toward zero (saturation is
irrelevant at the magnitudes in scope). -/
def truncF (q : ℚ) : Int := if q < 0 then ⌈q⌉ else ⌊q⌋

/-- Rust `i32::clamp`. -/
def i32Clamp (x lo hi : Int) : Int := if x < lo then lo else if hi < x then hi else x

/-- The wheel closure installed by `Audio::view` on the panel icon:
`y` is the raw line delta or the signum of the pixel delta, and the new
volume is `(model.sink_volume as i32 + (y * 5.0) as i32).clamp(0, 100)`. -/
def Audio.viewWheelVol (a : Audio) (d : ScrollDelta) : Nat :=
  let y : ℚ :=
    match d with
    | .lines _ y => y
    | .pixels _ y => signumF y
  (i32Clamp ((a.model.sink_volume : Int) + truncF (y * 5)) 0 100).toNat

/-- The message the wheel closure produces. -/
def Audio.viewWheelMsg (a : Audio) (d : ScrollDelta) : Msg :=
  Msg.setSinkVolume (a.viewWheelVol d)

/-! ## Gesture widget from `src/mouse_area.rs` -/

/-- A 2-D point with exact-rational coordinates. -/
structure Point where
  x : ℚ
  y : ℚ
  deriving DecidableEq, Repr

/-- Squared Euclidean distance; `Point::distance p q > 1.0` is equivalent to
`distSq p q > 1` since both sides are nonnegative and squaring is monotone. -/
def Point.distSq (p q : Point) : ℚ := (p.x - q.x) ^ 2 + (p.y - q.y) ^ 2

/-- An axis-aligned rectangle (`iced::Rectangle`). -/
structure Rect where
  x : ℚ
  y : ℚ
  w : ℚ
  h : ℚ
  deriving DecidableEq, Repr

/-- `Rectangle::contains`: left/top inclusive, right/bottom exclusive. -/
def Rect.containsB (r : Rect) (p : Point) : Bool :=
  decide (r.x ≤ p.x) && decide (p.x < r.x + r.w) &&
  decide (r.y ≤ p.y) && decide (p.y < r.y + r.h)

/-- `mouse::Cursor::is_over`: an unavailable cursor is over nothing. -/
def cursorOver (c : Option Point) (r : Rect) : Bool :=
  match c with
  | some p => r.containsB p
  | none => false

/-- Mouse buttons distinguished by the widget. -/
inductive MButton
  | left | right | middle | back
  deriving DecidableEq, Repr

/-- The input events the `update` function of `mouse_area.rs` matches on. -/
inductive MAEvent
  | cursorMoved
  | buttonPressed (b : MButton)
  | buttonReleased (b : MButton)
  | wheelScrolled (d : ScrollDelta)
  | fingerPressed
  | fingerLifted
  | otherEvent
  deriving DecidableEq, Repr

/-- The semantic messages the widget can publish, one token per gesture
kind (handlers carry arbitrary caller messages in the source; distinct
tokens model them faithfully up to renaming). -/
inductive GMsg
  | press | release
  | rightPress | rightRelease
  | middlePress | middleRelease
  | enter | exit | drag
  | wheel (d : ScrollDelta)
  deriving DecidableEq, Repr

/-- Which handlers are configured on the widget (in the source each is an
`Option<Message>`; `on_mouse_wheel` is an `Option` of a delta-to-message
function, modelled by the `GMsg.wheel` token family). -/
structure MAWidget where
  on_drag : Bool
  on_press : Bool
  on_release : Bool
  on_right_press : Bool
  on_right_release : Bool
  on_middle_press : Bool
  on_middle_release : Bool
  on_mouse_enter : Bool
  on_mouse_exit : Bool
  on_mouse_wheel : Bool
  deriving DecidableEq, Repr

/-- `struct State` of the widget. -/
structure MAState where
  drag_initiated : Option Point
  is_out_of_bounds : Bool
  deriving DecidableEq, Repr

/-- `State::default()`. -/
def MAState.default : MAState := ⟨none, true⟩

/-- Event status (`iced_core::event::Status`). -/
inductive MAStatus
  | ignored | captured
  deriving DecidableEq, Repr

/-- The outcome of one widget `update` call: new state, published messages
in order, and the returned status. -/
structure MAResult where
  state : MAState
  msgs : List GMsg
  status : MAStatus
  deriving DecidableEq, Repr

/-- `Event::Mouse(ButtonPressed(Left)) | Event::Touch(FingerPressed)`. -/
def isLeftPress : MAEvent → Bool
  | .buttonPressed .left => true
  | .fingerPressed => true
  | _ => false

/-- `Event::Mouse(ButtonReleased(Left)) | Event::Touch(FingerLifted)`. -/
def isLeftRelease : MAEvent → Bool
  | .buttonReleased .left => true
  | .fingerLifted => true
  | _ => false

/-- `Event::Mouse(CursorMoved)`. -/
def isCursorMoved : MAEvent → Bool
  | .cursorMoved => true
  | _ => false

/-- The trailing wheel check of `update` (the code path reached when no
earlier branch returned): publishes the wheel message on a wheel event if
the handler exists, else falls through to `Status::Ignored` with the state
as mutated so far. -/
def wheelCheck (w : MAWidget) (e : MAEvent) (s : MAState) : MAResult :=
  match e with
  | .wheelScrolled d =>
    if w.on_mouse_wheel then ⟨s, [GMsg.wheel d], .captured⟩ else ⟨s, [], .ignored⟩
  | _ => ⟨s, [], .ignored⟩

/-- The free function `update` of `src/mouse_area.rs`, called only when the
wrapped child did not capture the event.  The sequential early-return chain
of the source is rendered as nested conditionals in the same order. -/
def maUpdate (w : MAWidget) (e : MAEvent) (c : Option Point) (bounds : Rect)
    (s : MAState) : MAResult :=
  if cursorOver c bounds = false then
    if !s.is_out_of_bounds && (w.on_mouse_enter || w.on_mouse_exit) && isCursorMoved e then
      ⟨{ s with is_out_of_bounds := true },
       if w.on_mouse_exit then [GMsg.exit] else [], .captured⟩
    else ⟨s, [], .ignored⟩
  else if w.on_press && isLeftPress e then
    ⟨{ s with drag_initiated := c }, [GMsg.press], .captured⟩
  else if w.on_release && isLeftRelease e then
    ⟨{ s with drag_initiated := none }, [GMsg.release], .captured⟩
  else if w.on_right_press && decide (e = .buttonPressed .right) then
    ⟨s, [GMsg.rightPress], .captured⟩
  else if w.on_right_release && decide (e = .buttonReleased .right) then
    ⟨s, [GMsg.rightRelease], .captured⟩
  else if w.on_middle_press && decide (e = .buttonPressed .middle) then
    ⟨s, [GMsg.middlePress], .captured⟩
  else if w.on_middle_release && decide (e = .buttonReleased .middle) then
    ⟨s, [GMsg.middleRelease], .captured⟩
  else if (w.on_mouse_enter || w.on_mouse_exit) && isCursorMoved e && s.is_out_of_bounds then
    ⟨{ s with is_out_of_bounds := false },
     if w.on_mouse_enter then [GMsg.enter] else [], .captured⟩
  else if s.drag_initiated.isNone && w.on_drag then
    if isLeftPress e then wheelCheck w e { s with drag_initiated := c }
    else wheelCheck w e s
  else
    match w.on_drag, s.drag_initiated, c with
    | true, some src, some p =>
      if 1 < Point.distSq p src then
        ⟨{ s with drag_initiated := none }, [GMsg.drag], .captured⟩
      else wheelCheck w e s
    | _, _, _ => wheelCheck w e s

/-- Run the widget over a sequence of events, each with its cursor
position; returns the final state and, per event, the published messages
and status. -/
def runMA (w : MAWidget) (bounds : Rect) :
    MAState → List (MAEvent × Option Point) → MAState × List (List GMsg × MAStatus)
  | s, [] => (s, [])
  | s, (e, c) :: rest =>
    let r := maUpdate w e c bounds s
    let (sEnd, out) := runMA w bounds r.state rest
    (sEnd, (r.msgs, r.status) :: out)

/-! ## Rate-limit traces for the direct-step path -/

/-- An environment with only the clock set, for direct-step traces. -/
def mkEnv (t : Nat) : Env := ⟨t, 0, false, false⟩

/-- Feed a list of `(handling time, requested volume)` direct-step messages
through `Audio.update`; collect the times at which a command was issued. -/
def runSinkVolTimes : Audio → List (Nat × Nat) → List Nat
  | _, [] => []
  | a, (t, v) :: rest =>
    let r := Audio.update (mkEnv t) a (.setSinkVolume v)
    if r.2 = [] then runSinkVolTimes r.1 rest
    else t :: runSinkVolTimes r.1 rest

/-! ## Concrete sample states for witnesses and counterexamples -/

/-- A quiescent daemon model. -/
def mBase : Model := ⟨0, 0, "0%", "0%", false, false⟩

/-- The applet in its initial configuration (`Audio::default()` shape). -/
def aBase : Audio := ⟨none, mBase, DevOpen.none, 100, 100, [], [], 0, none, none, none⟩

/-- Mid-drag applet state: pending sink value 42. -/
def aC2 : Audio := { aBase with sink_drag_val := some 42 }

/-- Mid-drag applet state whose daemon-reported sink volume (10) differs
from the pending drag value (42). -/
def aC3 : Audio := { aBase with
  sink_drag_val := some 42
  model := { mBase with sink_volume := 10 } }

/-- Applet state that issued a direct-step command at instant 0. -/
def aC4 : Audio := { aBase with last_update := some 0 }

/-- Applet state from a previous popup-open with stale ceilings and
breakpoints. -/
def aC8 : Audio := { aBase with
  max_sink_volume := 37
  sink_breakpoints := [5]
  max_source_volume := 150
  source_breakpoints := [100] }

/-- Applet with an open popup (window id 7), a pending drag, and the
output device list expanded. -/
def aC9 : Audio := { aBase with
  popup := some 7
  sink_drag_val := some 42
  is_open := DevOpen.output }

/-- A 10 by 10 widget rectangle at the origin. -/
def rectEx : Rect := ⟨0, 0, 10, 10⟩

/-- Widget with drag and release handlers configured. -/
def wDragRel : MAWidget := ⟨true, false, true, false, false, false, false, false, false, false⟩

/-- Widget with drag and press handlers configured but no release handler. -/
def wDragPress : MAWidget := ⟨true, true, false, false, false, false, false, false, false, false⟩

/-- Widget with enter and exit handlers configured. -/
def wEnterExit : MAWidget := ⟨false, false, false, false, false, false, false, true, true, false⟩

/-- Gesture state with a recorded press origin at the rectangle corner and
the cursor known to be inside. -/
def sDrag : MAState := ⟨some ⟨0, 0⟩, false⟩

/-- Two consecutive cursor moves far outside `rectEx`. -/
def evsC7 : List (MAEvent × Option Point) :=
  [(MAEvent.cursorMoved, some ⟨20, 20⟩), (MAEvent.cursorMoved, some ⟨30, 30⟩)]

/-! ## Update-arm lemmas for `Audio.update` -/

/-- A first direct-step message always issues and records the clock. -/
lemma setSink_none (env : Env) (a : Audio) (v : Nat) (h : a.last_update = none) :
    Audio.update env a (.setSinkVolume v)
      = ({ a with last_update := some env.now },
         [Effect.spawn "wpctl" ["set-volume", "@DEFAULT_AUDIO_SINK@", fmtCenti v]]) := by
  simp [Audio.update, h]

/-- A direct-step message within the 50 ms guard is dropped whole. -/
lemma setSink_recent (env : Env) (a : Audio) (v l : Nat) (h : a.last_update = some l)
    (hlt : (env.now - l) / 1000000 < 50) :
    Audio.update env a (.setSinkVolume v) = (a, []) := by
  simp [Audio.update, h, hlt]

/-- A direct-step message past the 50 ms guard issues and re-records. -/
lemma setSink_due (env : Env) (a : Audio) (v l : Nat) (h : a.last_update = some l)
    (hge : ¬ (env.now - l) / 1000000 < 50) :
    Audio.update env a (.setSinkVolume v)
      = ({ a with last_update := some env.now },
         [Effect.spawn "wpctl" ["set-volume", "@DEFAULT_AUDIO_SINK@", fmtCenti v]]) := by
  simp [Audio.update, h, hge]

/-- Unfolding equation for `runSinkVolTimes` on a nonempty trace. -/
lemma runSinkVolTimes_cons (a : Audio) (t v : Nat) (ts : List (Nat × Nat)) :
    runSinkVolTimes a ((t, v) :: ts)
      = (if (Audio.update (mkEnv t) a (.setSinkVolume v)).2 = []
         then runSinkVolTimes (Audio.update (mkEnv t) a (.setSinkVolume v)).1 ts
         else t :: runSinkVolTimes (Audio.update (mkEnv t) a (.setSinkVolume v)).1 ts) := rfl

/-- If a trace starting from a state whose last issue happened at `l`
issues at all, its first issue is at least 50 ms after `l`. -/
lemma runSinkVolTimes_head_ge (ts : List (Nat × Nat)) :
    ∀ (a : Audio) (l t : Nat) (rest : List Nat), a.last_update = some l →
      runSinkVolTimes a ts = t :: rest → l + 50000000 ≤ t := by
  induction ts with
  | nil =>
    intro a l t rest _ h
    simp [runSinkVolTimes] at h
  | cons tv ts ih =>
    intro a l t rest hl h
    obtain ⟨t0, v0⟩ := tv
    rw [runSinkVolTimes_cons] at h
    by_cases hc : (t0 - l) / 1000000 < 50
    · rw [setSink_recent (mkEnv t0) a v0 l hl hc] at h
      simp only [if_pos rfl] at h
      exact ih a l t rest hl h
    · rw [setSink_due (mkEnv t0) a v0 l hl hc] at h
      rw [if_neg (by simp)] at h
      injection h with h1 h2
      have h50 : ¬ t0 - l < 50 * 1000000 := fun hlt =>
        hc ((Nat.div_lt_iff_lt_mul (by norm_num : (0:Nat) < 1000000)).mpr hlt)
      omega

/-- Any two consecutive issued direct-step commands in a trace are at least
50 ms apart. -/
lemma runSinkVolTimes_chain (ts : List (Nat × Nat)) :
    ∀ a : Audio, List.Chain' (fun t1 t2 => t1 + 50000000 ≤ t2) (runSinkVolTimes a ts) := by
  induction ts with
  | nil => intro a; simp [runSinkVolTimes]
  | cons tv ts ih =>
    intro a
    obtain ⟨t0, v0⟩ := tv
    rw [runSinkVolTimes_cons]
    rcases hl : a.last_update with _ | l
    · rw [setSink_none (mkEnv t0) a v0 hl]
      rw [if_neg (by simp)]
      rw [List.chain'_cons']
      refine ⟨?_, ih _⟩
      intro b hb
      rcases hh : runSinkVolTimes { a with last_update := some (mkEnv t0).now } ts
        with _ | ⟨c, cs⟩
      · rw [hh] at hb; simp at hb
      · rw [hh] at hb
        obtain rfl : b = c := by simpa using hb.symm
        exact runSinkVolTimes_head_ge ts _ t0 b cs rfl hh
    · by_cases hc : (t0 - l) / 1000000 < 50
      · rw [setSink_recent (mkEnv t0) a v0 l hl hc]
        rw [if_pos rfl]
        exact ih a
      · rw [setSink_due (mkEnv t0) a v0 l hl hc]
        rw [if_neg (by simp)]
        rw [List.chain'_cons']
        refine ⟨?_, ih _⟩
        intro b hb
        rcases hh : runSinkVolTimes { a with last_update := some (mkEnv t0).now } ts
          with _ | ⟨c, cs⟩
        · rw [hh] at hb; simp at hb
        · rw [hh] at hb
          obtain rfl : b = c := by simpa using hb.symm
          exact runSinkVolTimes_head_ge ts _ t0 b cs rfl hh

/-! ## Claim theorems: panel state machine and control protocol -/

/-- Claim C1: in `view_window` the rendered value for each axis (slider
position and percentage label) is the pending drag value when present and
the daemon-reported model value otherwise; a daemon push processed mid-drag
leaves the pending value untouched, so after dragging to 42 and receiving a
push reporting 37 the rendered sink value stays 42, and once the commit
clears the pending value it falls back to 37. -/
theorem c1_pending_over_reported (env : Env) (a : Audio) (srcv : Nat) :
    (a.view_window.1.value = a.sink_drag_val.getD a.model.sink_volume
      ∧ a.view_window.1.labelText = toString (a.sink_drag_val.getD a.model.sink_volume) ++ "%"
      ∧ a.view_window.2.value = a.source_drag_val.getD a.model.source_volume
      ∧ a.view_window.2.labelText = toString (a.source_drag_val.getD a.model.source_volume) ++ "%")
    ∧ (Audio.update env a (.subscriptionPush 37 srcv)).1.sink_drag_val = a.sink_drag_val
    ∧ (Audio.update env (Audio.update env a (.dragSink 42)).1
        (.subscriptionPush 37 srcv)).1.view_window.1.value = 42
    ∧ (Audio.update env
        (Audio.update env (Audio.update env a (.dragSink 42)).1
          (.subscriptionPush 37 srcv)).1 .commitSink).1.view_window.1.value = 37 :=
  ⟨⟨rfl, rfl, rfl, rfl⟩, rfl, rfl, rfl⟩

/-- Claim C2: a commit message with a pending drag value issues exactly one
`wpctl set-volume` command on the default sink (resp. source) carrying the
pending value as a two-decimal fraction, and clears only the pending value;
a commit with no pending value changes nothing and issues nothing. -/
theorem c2_commit_semantics (env : Env) (a : Audio) :
    (∀ v : Nat, a.sink_drag_val = some v →
      Audio.update env a .commitSink
        = ({ a with sink_drag_val := none },
           [Effect.spawn "wpctl" ["set-volume", "@DEFAULT_AUDIO_SINK@", fmtCenti v]]))
    ∧ (a.sink_drag_val = none → Audio.update env a .commitSink = (a, []))
    ∧ (∀ v : Nat, a.source_drag_val = some v →
      Audio.update env a .commitSource
        = ({ a with source_drag_val := none },
           [Effect.spawn "wpctl" ["set-volume", "@DEFAULT_AUDIO_SOURCE@", fmtCenti v]]))
    ∧ (a.source_drag_val = none → Audio.update env a .commitSource = (a, [])) := by
  refine ⟨?_, ?_, ?_, ?_⟩
  · intro v hv; simp [Audio.update, hv]
  · intro hv; simp [Audio.update, hv]
  · intro v hv; simp [Audio.update, hv]
  · intro hv; simp [Audio.update, hv]

/-- Witness for C2 at a concrete state: pending 42 commits as "0.42" and a
commit without pending state is a no-op. -/
theorem c2_commit_semantics_witness :
    Audio.update (mkEnv 0) aC2 .commitSink
      = ({ aC2 with sink_drag_val := none },
         [Effect.spawn "wpctl" ["set-volume", "@DEFAULT_AUDIO_SINK@", "0.42"]])
    ∧ Audio.update (mkEnv 0) aBase .commitSink = (aBase, []) := by
  have h1 := (c2_commit_semantics (mkEnv 0) aC2).1 42 rfl
  have h2 := (c2_commit_semantics (mkEnv 0) aBase).2.1 rfl
  have e : fmtCenti 42 = "0.42" := by decide
  rw [e] at h1
  exact ⟨h1, h2⟩

/-- Claim C10: every drag-update message, besides setting the pending
value, overwrites the corresponding volume-text field of the
daemon-synchronized model with the dragged value rendered as a percent
string. -/
theorem c10_drag_overwrites_model_text (env : Env) (a : Audio) (v : Nat) :
    Audio.update env a (.dragSink v)
      = ({ a with
            sink_drag_val := some v
            model := { a.model with sink_volume_text := toString v ++ "%" } }, [])
    ∧ Audio.update env a (.dragSource v)
      = ({ a with
            source_drag_val := some v
            model := { a.model with source_volume_text := toString v ++ "%" } }, []) :=
  ⟨rfl, rfl⟩

/-- Claim C8: every popup-open transition recomputes each axis's slider
ceiling and breakpoints from the capability flag read at that open
(150/[100] when present, 100/[] when absent), independent of the values
left by any previous open. -/
theorem c8_popup_open_recomputes (env : Env) (a : Audio) (h : a.popup = none) :
    (Audio.update env a .togglePopup).1.max_sink_volume = (if env.ampSink then 150 else 100)
    ∧ (Audio.update env a .togglePopup).1.sink_breakpoints = (if env.ampSink then [100] else [])
    ∧ (Audio.update env a .togglePopup).1.max_source_volume
        = (if env.ampSource then 150 else 100)
    ∧ (Audio.update env a .togglePopup).1.source_breakpoints
        = (if env.ampSource then [100] else [])
    ∧ (Audio.update env a .togglePopup).1.popup = some env.freshId
    ∧ (Audio.update env a .togglePopup).2 = [Effect.getPopup env.freshId] := by
  simp [Audio.update, h]

/-- Witness for C8: opening from a state with stale ceilings (37/[5] and
150/[100]) under flags (sink on, source off) yields 150/[100] and 100/[]. -/
theorem c8_popup_open_recomputes_witness :
    (Audio.update ⟨0, 7, true, false⟩ aC8 .togglePopup).1.max_sink_volume = 150
    ∧ (Audio.update ⟨0, 7, true, false⟩ aC8 .togglePopup).1.sink_breakpoints = [100]
    ∧ (Audio.update ⟨0, 7, true, false⟩ aC8 .togglePopup).1.max_source_volume = 100
    ∧ (Audio.update ⟨0, 7, true, false⟩ aC8 .togglePopup).1.source_breakpoints = [] := by
  obtain ⟨h1, h2, h3, h4, -, -⟩ := c8_popup_open_recomputes ⟨0, 7, true, false⟩ aC8 rfl
  exact ⟨h1, h2, h3, h4⟩

/-- Claim C9: closing the popup, by toggle while open or by a close request
carrying the tracked window id, changes exactly the popup handle (pending
drag values, device-list expansion and all other fields persist); a close
request with any other id changes nothing. -/
theorem c9_close_preserves_state (env : Env) (a : Audio) :
    (∀ p : Nat, a.popup = some p →
      Audio.update env a .togglePopup = ({ a with popup := none }, [Effect.destroyPopup p]))
    ∧ (∀ p : Nat, a.popup = some p →
      Audio.update env a (.closeRequested p) = ({ a with popup := none }, []))
    ∧ (∀ id : Nat, a.popup ≠ some id →
      Audio.update env a (.closeRequested id) = (a, [])) := by
  refine ⟨?_, ?_, ?_⟩
  · intro p hp; simp [Audio.update, hp]
  · intro p hp; simp [Audio.update, hp]
  · intro id hp; simp [Audio.update, hp]

/-- Witness for C9 at a concrete open-popup state with a pending drag and
expanded output list: both close paths clear only the handle, and a
foreign-id close request is a no-op. -/
theorem c9_close_preserves_state_witness :
    Audio.update (mkEnv 0) aC9 .togglePopup
      = ({ aC9 with popup := none }, [Effect.destroyPopup 7])
    ∧ Audio.update (mkEnv 0) aC9 (.closeRequested 7) = ({ aC9 with popup := none }, [])
    ∧ Audio.update (mkEnv 0) aC9 (.closeRequested 9) = (aC9, []) := by
  refine ⟨(c9_close_preserves_state (mkEnv 0) aC9).1 7 rfl,
    (c9_close_preserves_state (mkEnv 0) aC9).2.1 7 rfl,
    (c9_close_preserves_state (mkEnv 0) aC9).2.2 9 (by decide)⟩

/-- Claim C4: a direct-step (wheel-driven `SetSinkVolume`) message issues a
command exactly when no command was ever issued or at least 50 ms have
elapsed since the last issued one, recording the handling instant; within
the guard the message is dropped with no state change, so issued commands
in any trace are at least 50 ms apart (dropped ticks are never queued). -/
theorem c4_direct_step_rate_limit :
    (∀ (env : Env) (a : Audio) (v : Nat),
      (a.last_update = none →
        Audio.update env a (.setSinkVolume v)
          = ({ a with last_update := some env.now },
             [Effect.spawn "wpctl" ["set-volume", "@DEFAULT_AUDIO_SINK@", fmtCenti v]]))
      ∧ (∀ l : Nat, a.last_update = some l → 50 * 1000000 ≤ env.now - l →
        Audio.update env a (.setSinkVolume v)
          = ({ a with last_update := some env.now },
             [Effect.spawn "wpctl" ["set-volume", "@DEFAULT_AUDIO_SINK@", fmtCenti v]]))
      ∧ (∀ l : Nat, a.last_update = some l → env.now - l < 50 * 1000000 →
        Audio.update env a (.setSinkVolume v) = (a, [])))
    ∧ (∀ (a : Audio) (ts : List (Nat × Nat)),
        List.Chain' (fun t1 t2 => t1 + 50000000 ≤ t2) (runSinkVolTimes a ts)) := by
  refine ⟨fun env a v => ⟨?_, ?_, ?_⟩, fun a ts => runSinkVolTimes_chain ts a⟩
  · intro h; exact setSink_none env a v h
  · intro l hl hge
    refine setSink_due env a v l hl ?_
    intro hlt
    have := (Nat.div_lt_iff_lt_mul (by norm_num : (0:Nat) < 1000000)).mp hlt
    omega
  · intro l hl hlt
    refine setSink_recent env a v l hl ?_
    exact (Nat.div_lt_iff_lt_mul (by norm_num : (0:Nat) < 1000000)).mpr hlt

/-- Witness for C4: from a command issued at instant 0, a tick at
49999999 ns is dropped whole and a tick at 50000000 ns issues and
re-records. -/
theorem c4_direct_step_rate_limit_witness :
    Audio.update (mkEnv 49999999) aC4 (.setSinkVolume 30) = (aC4, [])
    ∧ Audio.update (mkEnv 50000000) aC4 (.setSinkVolume 30)
      = ({ aC4 with last_update := some 50000000 },
         [Effect.spawn "wpctl" ["set-volume", "@DEFAULT_AUDIO_SINK@", "0.30"]]) := by
  have h1 := (c4_direct_step_rate_limit.1 (mkEnv 49999999) aC4 30).2.2 0 rfl (by norm_num [mkEnv])
  have h2 := (c4_direct_step_rate_limit.1 (mkEnv 50000000) aC4 30).2.1 0 rfl (by norm_num [mkEnv])
  have e : fmtCenti 30 = "0.30" := by decide
  rw [e] at h2
  exact ⟨h1, h2⟩

/-- Counterexample to claim C3: with pending drag value 42 rendered (the
`view_window` sink value is 42) but daemon-reported model volume 10, a
line-scroll of +1 produces `SetSinkVolume 15` = clamp(10 + 5), not
clamp(42 + 5) = 47 — the wheel closure reads `model.sink_volume`, not the
rendered value. -/
theorem c3_counterexample :
    aC3.view_window.1.value = 42
    ∧ Audio.viewWheelMsg aC3 (ScrollDelta.lines 0 1) = Msg.setSinkVolume 15
    ∧ (15 : Nat) ≠ 47 := by
  refine ⟨rfl, ?_, by decide⟩
  norm_num [Audio.viewWheelMsg, Audio.viewWheelVol, truncF, signumF, i32Clamp,
    aC3, aBase, mBase]
  decide

/-- Claim C3 as amended: the wheel closure's base is the daemon-reported
`model.sink_volume` (ignoring any pending drag value), and the step is the
truncation of `5 * y` for a line delta `y` (so `5 * sign` only when the
line magnitude is 1) while a pixel delta is first replaced by its sign,
giving exactly `clamp(base ± 5, 0, 100)`. -/
theorem c3_wheel_step_amended (a : Audio) (x y : ℚ) :
    Audio.viewWheelVol a (.lines x y)
      = (i32Clamp ((a.model.sink_volume : Int) + truncF (y * 5)) 0 100).toNat
    ∧ (0 < y → Audio.viewWheelVol a (.pixels x y)
      = (i32Clamp ((a.model.sink_volume : Int) + 5) 0 100).toNat)
    ∧ (y < 0 → Audio.viewWheelVol a (.pixels x y)
      = (i32Clamp ((a.model.sink_volume : Int) - 5) 0 100).toNat) := by
  refine ⟨rfl, ?_, ?_⟩
  · intro hy
    have hs : signumF y = 1 := by simp [signumF, not_lt.mpr hy.le]
    have ht : truncF ((1 : ℚ) * 5) = 5 := by norm_num [truncF]
    simp only [Audio.viewWheelVol, hs, ht]
  · intro hy
    have hs : signumF y = -1 := by simp [signumF, hy]
    have ht : truncF ((-1 : ℚ) * 5) = -5 := by
      have h5 : ((-1 : ℚ) * 5) = ((-5 : ℤ) : ℚ) := by norm_num
      rw [truncF, h5, if_pos (by norm_num)]
      exact Int.ceil_intCast (-5)
    simp only [Audio.viewWheelVol, hs, ht]
    rw [← sub_eq_add_neg]

/-- Witness for the amended C3 at pixel deltas of both signs over the
concrete state `aC3` (model volume 10). -/
theorem c3_wheel_step_amended_witness :
    Audio.viewWheelVol aC3 (ScrollDelta.pixels 0 1)
      = (i32Clamp ((aC3.model.sink_volume : Int) + 5) 0 100).toNat
    ∧ Audio.viewWheelVol aC3 (ScrollDelta.pixels 0 (-1))
      = (i32Clamp ((aC3.model.sink_volume : Int) - 5) 0 100).toNat :=
  ⟨(c3_wheel_step_amended aC3 0 1).2.1 (by norm_num),
   (c3_wheel_step_amended aC3 0 (-1)).2.2 (by norm_num)⟩

/-! ## Gesture-widget lemmas -/

/-- Out-of-bounds events in the out-of-bounds state are ignored whole. -/
lemma maUpdate_oob_ignored (w : MAWidget) (e : MAEvent) (c : Option Point) (bounds : Rect)
    (s : MAState) (hc : cursorOver c bounds = false) (hs : s.is_out_of_bounds = true) :
    maUpdate w e c bounds s = ⟨s, [], .ignored⟩ := by
  unfold maUpdate
  rw [if_pos hc, hs]
  simp

/-- An out-of-bounds cursor move with enter/exit configured and the state
still in-bounds flips the flag and fires the exit message if configured. -/
lemma maUpdate_oob_exit (w : MAWidget) (c : Option Point) (bounds : Rect) (s : MAState)
    (hc : cursorOver c bounds = false) (hs : s.is_out_of_bounds = false)
    (hw : (w.on_mouse_enter || w.on_mouse_exit) = true) :
    maUpdate w MAEvent.cursorMoved c bounds s
      = ⟨{ s with is_out_of_bounds := true },
         if w.on_mouse_exit then [GMsg.exit] else [], .captured⟩ := by
  unfold maUpdate
  rw [if_pos hc, hs, hw]
  simp [isCursorMoved]

/-- Unfolding equation for `runMA` on a nonempty event list. -/
lemma runMA_cons (w : MAWidget) (bounds : Rect) (s : MAState) (e : MAEvent) (c : Option Point)
    (evs : List (MAEvent × Option Point)) :
    runMA w bounds s ((e, c) :: evs)
      = ((runMA w bounds (maUpdate w e c bounds s).state evs).1,
         ((maUpdate w e c bounds s).msgs, (maUpdate w e c bounds s).status)
           :: (runMA w bounds (maUpdate w e c bounds s).state evs).2) := rfl

/-- A run over out-of-bounds events from the out-of-bounds state leaves the
state untouched and every event ignored with no message. -/
lemma runMA_oob (w : MAWidget) (bounds : Rect) (evs : List (MAEvent × Option Point)) :
    ∀ s : MAState, s.is_out_of_bounds = true →
      (∀ ec ∈ evs, cursorOver ec.2 bounds = false) →
      runMA w bounds s evs = (s, evs.map (fun _ => ([], MAStatus.ignored))) := by
  induction evs with
  | nil => intro s _ _; rfl
  | cons ec evs ih =>
    intro s hs hb
    obtain ⟨e, c⟩ := ec
    have h1 : maUpdate w e c bounds s = ⟨s, [], .ignored⟩ :=
      maUpdate_oob_ignored w e c bounds s (hb (e, c) (List.mem_cons_self _ _)) hs
    have h2 := ih s hs (fun ec h => hb ec (List.mem_cons_of_mem _ h))
    simp only [runMA_cons, h1, h2, List.map_cons]

/-- Members of an all-ignored result list. -/
lemma mem_map_const_ignored {r : List GMsg × MAStatus} (evs : List (MAEvent × Option Point))
    (hr : r ∈ evs.map fun _ => (([] : List GMsg), MAStatus.ignored)) :
    r = ([], MAStatus.ignored) := by
  simp only [List.mem_map] at hr
  obtain ⟨_, _, rfl⟩ := hr
  rfl

/-- An all-ignored result list carries no exit message. -/
lemma countP_exit_map_nil (evs : List (MAEvent × Option Point)) :
    List.countP (fun r => decide (GMsg.exit ∈ r.1))
      (evs.map fun _ => (([] : List GMsg), MAStatus.ignored)) = 0 := by
  induction evs with
  | nil => rfl
  | cons e evs ih => simp [List.countP_cons, ih]

/-- In-bounds cursor move with a recorded origin, flag in-bounds, distance
within the threshold: nothing is published and the state is unchanged. -/
lemma maUpdate_move_drag_small (w : MAWidget) (bounds : Rect) (s : MAState)
    (origin p : Point) (hw : w.on_drag = true)
    (h1 : s.drag_initiated = some origin) (h2 : s.is_out_of_bounds = false)
    (h3 : cursorOver (some p) bounds = true) (hd : Point.distSq p origin ≤ 1) :
    maUpdate w .cursorMoved (some p) bounds s = ⟨s, [], .ignored⟩ := by
  have n1 : ¬ (cursorOver (some p) bounds = false) := by simp [h3]
  have n2 : ¬ ((w.on_press && isLeftPress MAEvent.cursorMoved) = true) := by
    simp [isLeftPress]
  have n3 : ¬ ((w.on_release && isLeftRelease MAEvent.cursorMoved) = true) := by
    simp [isLeftRelease]
  have n4 : ¬ ((w.on_right_press
      && decide (MAEvent.cursorMoved = MAEvent.buttonPressed MButton.right)) = true) := by
    simp
  have n5 : ¬ ((w.on_right_release
      && decide (MAEvent.cursorMoved = MAEvent.buttonReleased MButton.right)) = true) := by
    simp
  have n6 : ¬ ((w.on_middle_press
      && decide (MAEvent.cursorMoved = MAEvent.buttonPressed MButton.middle)) = true) := by
    simp
  have n7 : ¬ ((w.on_middle_release
      && decide (MAEvent.cursorMoved = MAEvent.buttonReleased MButton.middle)) = true) := by
    simp
  have n8 : ¬ (((w.on_mouse_enter || w.on_mouse_exit)
      && isCursorMoved MAEvent.cursorMoved && s.is_out_of_bounds) = true) := by
    simp [h2]
  have n9 : ¬ ((s.drag_initiated.isNone && w.on_drag) = true) := by simp [h1]
  unfold maUpdate
  rw [if_neg n1, if_neg n2, if_neg n3, if_neg n4, if_neg n5, if_neg n6, if_neg n7,
    if_neg n8, if_neg n9]
  simp only [hw, h1]
  rw [if_neg (not_lt.mpr hd)]
  rfl

/-- In-bounds cursor move with a recorded origin, flag in-bounds, distance
beyond the threshold: the origin is cleared and exactly one drag message is
published. -/
lemma maUpdate_move_drag_fire (w : MAWidget) (bounds : Rect) (s : MAState)
    (origin p : Point) (hw : w.on_drag = true)
    (h1 : s.drag_initiated = some origin) (h2 : s.is_out_of_bounds = false)
    (h3 : cursorOver (some p) bounds = true) (hd : 1 < Point.distSq p origin) :
    maUpdate w .cursorMoved (some p) bounds s
      = ⟨{ s with drag_initiated := none }, [GMsg.drag], .captured⟩ := by
  have n1 : ¬ (cursorOver (some p) bounds = false) := by simp [h3]
  have n2 : ¬ ((w.on_press && isLeftPress MAEvent.cursorMoved) = true) := by
    simp [isLeftPress]
  have n3 : ¬ ((w.on_release && isLeftRelease MAEvent.cursorMoved) = true) := by
    simp [isLeftRelease]
  have n4 : ¬ ((w.on_right_press
      && decide (MAEvent.cursorMoved = MAEvent.buttonPressed MButton.right)) = true) := by
    simp
  have n5 : ¬ ((w.on_right_release
      && decide (MAEvent.cursorMoved = MAEvent.buttonReleased MButton.right)) = true) := by
    simp
  have n6 : ¬ ((w.on_middle_press
      && decide (MAEvent.cursorMoved = MAEvent.buttonPressed MButton.middle)) = true) := by
    simp
  have n7 : ¬ ((w.on_middle_release
      && decide (MAEvent.cursorMoved = MAEvent.buttonReleased MButton.middle)) = true) := by
    simp
  have n8 : ¬ (((w.on_mouse_enter || w.on_mouse_exit)
      && isCursorMoved MAEvent.cursorMoved && s.is_out_of_bounds) = true) := by
    simp [h2]
  have n9 : ¬ ((s.drag_initiated.isNone && w.on_drag) = true) := by simp [h1]
  unfold maUpdate
  rw [if_neg n1, if_neg n2, if_neg n3, if_neg n4, if_neg n5, if_neg n6, if_neg n7,
    if_neg n8, if_neg n9]
  simp only [hw, h1]
  rw [if_pos hd]

/-- In-bounds cursor move with no recorded origin and the flag in-bounds:
no message, state unchanged, ignored — a drag cannot refire. -/
lemma maUpdate_move_no_origin (w : MAWidget) (bounds : Rect) (s : MAState) (p : Point)
    (hw : w.on_drag = true) (h1 : s.drag_initiated = none)
    (h2 : s.is_out_of_bounds = false) (h3 : cursorOver (some p) bounds = true) :
    maUpdate w .cursorMoved (some p) bounds s = ⟨s, [], .ignored⟩ := by
  have n1 : ¬ (cursorOver (some p) bounds = false) := by simp [h3]
  have n2 : ¬ ((w.on_press && isLeftPress MAEvent.cursorMoved) = true) := by
    simp [isLeftPress]
  have n3 : ¬ ((w.on_release && isLeftRelease MAEvent.cursorMoved) = true) := by
    simp [isLeftRelease]
  have n4 : ¬ ((w.on_right_press
      && decide (MAEvent.cursorMoved = MAEvent.buttonPressed MButton.right)) = true) := by
    simp
  have n5 : ¬ ((w.on_right_release
      && decide (MAEvent.cursorMoved = MAEvent.buttonReleased MButton.right)) = true) := by
    simp
  have n6 : ¬ ((w.on_middle_press
      && decide (MAEvent.cursorMoved = MAEvent.buttonPressed MButton.middle)) = true) := by
    simp
  have n7 : ¬ ((w.on_middle_release
      && decide (MAEvent.cursorMoved = MAEvent.buttonReleased MButton.middle)) = true) := by
    simp
  have n8 : ¬ (((w.on_mouse_enter || w.on_mouse_exit)
      && isCursorMoved MAEvent.cursorMoved && s.is_out_of_bounds) = true) := by
    simp [h2]
  have p9 : (s.drag_initiated.isNone && w.on_drag) = true := by simp [h1, hw]
  have n10 : ¬ (isLeftPress MAEvent.cursorMoved = true) := by simp [isLeftPress]
  unfold maUpdate
  rw [if_neg n1, if_neg n2, if_neg n3, if_neg n4, if_neg n5, if_neg n6, if_neg n7,
    if_neg n8, if_pos p9, if_neg n10]
  rfl

/-! ## Claim theorems: gesture widget -/

/-- Counterexample to claim C5: with drag and release handlers configured,
an origin recorded at (0,0) and the cursor at (5,0) — Euclidean distance 5,
well beyond the 1.0 threshold — a left-release event (the first event after
the press) publishes the release message, not a drag message, because the
release branch precedes the drag check; so "any event whose cursor position
exceeds distance 1.0 publishes exactly one drag message" fails. -/
theorem c5_counterexample :
    (1 : ℚ) < Point.distSq ⟨5, 0⟩ ⟨0, 0⟩
    ∧ maUpdate wDragRel (.buttonReleased .left) (some ⟨5, 0⟩) rectEx sDrag
        = ⟨⟨none, false⟩, [GMsg.release], .captured⟩
    ∧ [GMsg.release] ≠ [GMsg.drag] := by
  refine ⟨by norm_num [Point.distSq], ?_, by decide⟩
  have hc : cursorOver (some (⟨5, 0⟩ : Point)) rectEx = true := by
    norm_num [cursorOver, Rect.containsB, rectEx]
  unfold maUpdate
  rw [hc]
  simp [wDragRel, sDrag, isLeftPress, isLeftRelease]

/-- Claim C5 as amended: restricted to cursor-move events processed while
the out-of-bounds flag is false (events matching an earlier configured
handler branch, such as a left release, are consumed before the drag
check).  With a drag handler configured and a recorded origin: a move at
distance ≤ 1.0 publishes nothing and changes no state; a move beyond 1.0
publishes exactly one drag message and clears the origin; once the origin
is cleared, a further move publishes nothing until a new press. -/
theorem c5_drag_threshold_amended (w : MAWidget) (bounds : Rect) (s : MAState)
    (origin p : Point) (hw : w.on_drag = true) :
    (s.drag_initiated = some origin → s.is_out_of_bounds = false →
      cursorOver (some p) bounds = true →
      ((Point.distSq p origin ≤ 1 →
        maUpdate w .cursorMoved (some p) bounds s = ⟨s, [], .ignored⟩)
       ∧ (1 < Point.distSq p origin →
        maUpdate w .cursorMoved (some p) bounds s
          = ⟨{ s with drag_initiated := none }, [GMsg.drag], .captured⟩)))
    ∧ (s.drag_initiated = none → s.is_out_of_bounds = false →
      cursorOver (some p) bounds = true →
      maUpdate w .cursorMoved (some p) bounds s = ⟨s, [], .ignored⟩) :=
  ⟨fun h1 h2 h3 =>
    ⟨fun hd => maUpdate_move_drag_small w bounds s origin p hw h1 h2 h3 hd,
     fun hd => maUpdate_move_drag_fire w bounds s origin p hw h1 h2 h3 hd⟩,
   fun h1 h2 h3 => maUpdate_move_no_origin w bounds s p hw h1 h2 h3⟩

/-- Witness for the amended C5: a concrete move to (5,0) from origin (0,0)
fires exactly one drag message and clears the origin. -/
theorem c5_drag_threshold_amended_witness :
    maUpdate wDragRel .cursorMoved (some ⟨5, 0⟩) rectEx sDrag
      = ⟨⟨none, false⟩, [GMsg.drag], .captured⟩ := by
  have h := ((c5_drag_threshold_amended wDragRel rectEx sDrag ⟨0, 0⟩ ⟨5, 0⟩ rfl).1 rfl rfl
      (by norm_num [cursorOver, Rect.containsB, rectEx])).2
      (by norm_num [Point.distSq])
  exact h

/-- Counterexample to claim C6: with drag and press handlers but no release
handler configured, an in-bounds left-release at distance ≤ 1 from the
recorded origin leaves the origin recorded — the release branch only runs
when its handler is configured, so the clearing is not unconditional. -/
theorem c6_counterexample :
    wDragPress.on_release = false
    ∧ maUpdate wDragPress (.buttonReleased .left) (some ⟨1, 0⟩) rectEx sDrag
        = ⟨⟨some ⟨0, 0⟩, false⟩, [], .ignored⟩
    ∧ some (⟨0, 0⟩ : Point) ≠ (none : Option Point) := by
  refine ⟨rfl, ?_, by decide⟩
  have hc : cursorOver (some (⟨1, 0⟩ : Point)) rectEx = true := by
    norm_num [cursorOver, Rect.containsB, rectEx]
  have hd : ¬ ((1 : ℚ) < Point.distSq ⟨1, 0⟩ ⟨0, 0⟩) := by norm_num [Point.distSq]
  unfold maUpdate
  rw [hc]
  simp [wDragPress, sDrag, isLeftPress, isLeftRelease, isCursorMoved, wheelCheck, hd]

/-- Claim C6 as amended: an in-bounds left-release or touch-end clears the
recorded drag origin (and publishes the release, captured) provided a
release handler is configured; the other handlers are arbitrary. -/
theorem c6_release_clear_amended (w : MAWidget) (e : MAEvent) (c : Option Point)
    (bounds : Rect) (s : MAState) (hr : w.on_release = true)
    (he : e = MAEvent.buttonReleased MButton.left ∨ e = MAEvent.fingerLifted)
    (hc : cursorOver c bounds = true) :
    maUpdate w e c bounds s
      = ⟨{ s with drag_initiated := none }, [GMsg.release], .captured⟩ := by
  have n1 : ¬ (cursorOver c bounds = false) := by simp [hc]
  rcases he with rfl | rfl
  · have n2 : ¬ ((w.on_press && isLeftPress (MAEvent.buttonReleased MButton.left)) = true) := by
      simp [isLeftPress]
    have p3 : (w.on_release && isLeftRelease (MAEvent.buttonReleased MButton.left)) = true := by
      simp [hr, isLeftRelease]
    unfold maUpdate
    rw [if_neg n1, if_neg n2, if_pos p3]
  · have n2 : ¬ ((w.on_press && isLeftPress MAEvent.fingerLifted) = true) := by
      simp [isLeftPress]
    have p3 : (w.on_release && isLeftRelease MAEvent.fingerLifted) = true := by
      simp [hr, isLeftRelease]
    unfold maUpdate
    rw [if_neg n1, if_neg n2, if_pos p3]

/-- Witness for the amended C6: a touch-end in bounds with a release
handler configured clears the recorded origin. -/
theorem c6_release_clear_amended_witness :
    maUpdate wDragRel MAEvent.fingerLifted (some ⟨2, 3⟩) rectEx sDrag
      = ⟨⟨none, false⟩, [GMsg.release], .captured⟩ := by
  have h := c6_release_clear_amended wDragRel MAEvent.fingerLifted (some ⟨2, 3⟩) rectEx sDrag
    rfl (Or.inr rfl) (by norm_num [cursorOver, Rect.containsB, rectEx])
  exact h

/-- Claim C7: with an enter or exit handler configured, a sequence of
cursor moves that all stay outside the rectangle publishes at most one exit
message; every event is either ignored with no message or is the single
captured transition (which carries the exit message exactly when the exit
handler is configured); and if the state already records out-of-bounds, all
such events are ignored — a further exit needs an intervening in-bounds
move. -/
theorem c7_single_exit (w : MAWidget) (bounds : Rect) (s : MAState)
    (evs : List (MAEvent × Option Point))
    (hw : (w.on_mouse_enter || w.on_mouse_exit) = true)
    (hevs : ∀ ec ∈ evs, ec.1 = MAEvent.cursorMoved ∧ cursorOver ec.2 bounds = false) :
    (∀ r ∈ (runMA w bounds s evs).2,
      r = ([], MAStatus.ignored) ∨ r = ([GMsg.exit], MAStatus.captured)
        ∨ r = ([], MAStatus.captured))
    ∧ List.countP (fun r => decide (GMsg.exit ∈ r.1)) (runMA w bounds s evs).2 ≤ 1
    ∧ (s.is_out_of_bounds = true →
      ∀ r ∈ (runMA w bounds s evs).2, r = ([], MAStatus.ignored)) := by
  cases hs : s.is_out_of_bounds with
  | true =>
    rw [runMA_oob w bounds evs s hs (fun ec h => (hevs ec h).2)]
    refine ⟨?_, ?_, ?_⟩
    · intro r hr
      exact Or.inl (mem_map_const_ignored evs hr)
    · have hz : List.countP (fun r => decide (GMsg.exit ∈ r.1))
          (evs.map fun _ => (([] : List GMsg), MAStatus.ignored)) ≤ 1 := by
        rw [countP_exit_map_nil]
        exact Nat.zero_le 1
      exact hz
    · intro _ r hr
      exact mem_map_const_ignored evs hr
  | false =>
    cases evs with
    | nil => refine ⟨?_, ?_, ?_⟩ <;> simp [runMA]
    | cons ec evs =>
      obtain ⟨e, c⟩ := ec
      obtain ⟨he, hc⟩ := hevs (e, c) (List.mem_cons_self _ _)
      have he' : e = MAEvent.cursorMoved := he
      subst he'
      have hexit := maUpdate_oob_exit w c bounds s hc hs hw
      have h2 := runMA_oob w bounds evs { s with is_out_of_bounds := true } rfl
        (fun ec h => (hevs ec (List.mem_cons_of_mem _ h)).2)
      have hrun : runMA w bounds s ((MAEvent.cursorMoved, c) :: evs)
          = ({ s with is_out_of_bounds := true },
             ((if w.on_mouse_exit then [GMsg.exit] else [], MAStatus.captured))
               :: evs.map (fun _ => ([], MAStatus.ignored))) := by
        simp only [runMA_cons, hexit, h2]
      rw [hrun]
      refine ⟨?_, ?_, ?_⟩
      · intro r hr
        have hr' : r ∈ ((if w.on_mouse_exit then [GMsg.exit] else [], MAStatus.captured))
            :: evs.map (fun _ => (([] : List GMsg), MAStatus.ignored)) := hr
        rcases List.mem_cons.mp hr' with rfl | hmem
        · cases hx : w.on_mouse_exit
          · exact Or.inr (Or.inr rfl)
          · exact Or.inr (Or.inl rfl)
        · exact Or.inl (mem_map_const_ignored evs hmem)
      · have hb : List.countP (fun r => decide (GMsg.exit ∈ r.1))
            (((if w.on_mouse_exit then [GMsg.exit] else [], MAStatus.captured))
              :: evs.map (fun _ => (([] : List GMsg), MAStatus.ignored))) ≤ 1 := by
          rw [List.countP_cons, countP_exit_map_nil]
          cases hx : w.on_mouse_exit <;> simp
        exact hb
      · intro hfalse
        exact absurd hfalse (by decide)

/-- Witness for C7: a concrete two-move out-of-bounds run publishes at most
one exit message. -/
theorem c7_single_exit_witness :
    List.countP (fun r => decide (GMsg.exit ∈ r.1))
      (runMA wEnterExit rectEx ⟨none, false⟩ evsC7).2 ≤ 1 := by
  refine (c7_single_exit wEnterExit rectEx ⟨none, false⟩ evsC7 rfl ?_).2.1
  intro ec h
  simp only [evsC7, List.mem_cons, List.not_mem_nil, or_false] at h
  rcases h with rfl | rfl <;>
    exact ⟨rfl, by norm_num [cursorOver, Rect.containsB, rectEx]⟩
